import Mathlib

/-!
Shallow embedding of `src/project/src/components/TravelJournal.tsx`
(virtual-travel-journal): a single React component holding the journal
state in `useState` hooks, persisting the entries list to `localStorage`
and talking to a third-party autocomplete endpoint.

Modelling conventions:
* React state is a `JournalState` record; each event handler is a pure
  function from the old state (plus the outcome of its external effects:
  the current time for `Date.now()`, the HTTP response for `fetch`, the
  user's answer for `window.confirm`) to the new state.
* `localStorage` is a map from keys to stored values.  The browser
  built-ins `JSON.stringify` / `JSON.parse` are not code of this
  repository, so a stored JSON text is modelled by its abstract syntax
  tree (`Json`): `JSON.stringify` of the entries list becomes
  `encodeEntries`, and the `JSON.parse` performed by `loadSavedEntries`
  becomes `decodeEntries` (reading ill-typed data is modelled by the
  default `[]`, mirroring the code's untyped trust in the parse result).
* A JS string is modelled by `String` and the falsiness test `!s` by
  `s = ""`; an optional field (`string | null`, or a property JS leaves
  `undefined`) by `Option String` / `Option Nat`.
-/

namespace VirtualTravelJournal

/-- `interface User { email: string }` (TravelJournal.tsx lines 7-9). -/
structure User where
  email : String
deriving Repr, DecidableEq

/-- `interface Suggestion { place_id: number; description: string }`
(lines 11-14). -/
structure Suggestion where
  place_id : Nat
  description : String
deriving Repr, DecidableEq

/-- A journal entry.  The `newEntry` form state (lines 49-63) has fields
`title date location notes : string` and `image video : string | null`;
entries stored in the list additionally carry the `id` added at creation
(line 127, `{ ...newEntry, id: Date.now() }`).  Since the edit branch
(line 123) stores `newEntry` itself, whose `id` property may be absent,
`id` is an `Option Nat` on a single record type, `none` meaning the
property is not present. -/
structure Entry where
  title : String
  date : String
  location : String
  notes : String
  image : Option String
  video : Option String
  id : Option Nat
deriving Repr, DecidableEq

/-- The initial / reset value of the `newEntry` form state
(lines 56-63 and 133-140): all text fields empty, media and id absent. -/
def emptyEntry : Entry :=
  { title := "", date := "", location := "", notes := "",
    image := none, video := none, id := none }

/-- JSON values.  Stored JSON text is modelled by its abstract syntax
tree; entry objects only ever hold strings, `null` and the numeric
timestamp id, but arrays and objects are general. -/
inductive Json where
  | null : Json
  | str (s : String) : Json
  | num (n : Nat) : Json
  | arr (items : List Json) : Json
  | obj (fields : List (String × Json)) : Json

/-- `localStorage`: a map from string keys to stored (JSON) values. -/
def Store : Type := String → Option Json

/-- `localStorage.setItem(k, v)`. -/
def Store.setItem (st : Store) (k : String) (v : Json) : Store :=
  fun k2 => if k2 = k then some v else st k2

/-- `localStorage.removeItem(k)`. -/
def Store.removeItem (st : Store) (k : String) : Store :=
  fun k2 => if k2 = k then none else st k2

/-- `localStorage.getItem(k)`. -/
def Store.getItem (st : Store) (k : String) : Option Json := st k

/-- `JSON.stringify` of a `string | null` field. -/
def encodeOptStr : Option String → Json
  | none => Json.null
  | some s => Json.str s

/-- Reading a JSON value back as a `string | null` field. -/
def decodeOptStr : Json → Option (Option String)
  | Json.null => some none
  | Json.str s => some (some s)
  | _ => none

/-- `JSON.stringify` of one entry object: its properties in insertion
order (`title, date, location, notes, image, video`, then `id` when the
property is present). -/
def encodeEntry (e : Entry) : Json :=
  Json.obj
    ([("title", Json.str e.title), ("date", Json.str e.date),
      ("location", Json.str e.location), ("notes", Json.str e.notes),
      ("image", encodeOptStr e.image), ("video", encodeOptStr e.video)] ++
      (match e.id with
       | none => []
       | some i => [("id", Json.num i)]))

/-- `JSON.parse` of one entry object (the shapes `JSON.stringify`
produces for entries: six properties, or seven when `id` is present). -/
def decodeEntry : Json → Option Entry
  | Json.obj [("title", Json.str t), ("date", Json.str d),
      ("location", Json.str l), ("notes", Json.str n),
      ("image", img), ("video", vid)] => do
      let i ← decodeOptStr img
      let v ← decodeOptStr vid
      pure { title := t, date := d, location := l, notes := n,
             image := i, video := v, id := none }
  | Json.obj [("title", Json.str t), ("date", Json.str d),
      ("location", Json.str l), ("notes", Json.str n),
      ("image", img), ("video", vid), ("id", Json.num k)] => do
      let i ← decodeOptStr img
      let v ← decodeOptStr vid
      pure { title := t, date := d, location := l, notes := n,
             image := i, video := v, id := some k }
  | _ => none

/-- `JSON.parse` of a list of entry objects. -/
def decodeEntryList : List Json → Option (List Entry)
  | [] => some []
  | j :: js => do
      let e ← decodeEntry j
      let es ← decodeEntryList js
      pure (e :: es)

/-- `JSON.stringify(entries)` (line 70). -/
def encodeEntries (l : List Entry) : Json :=
  Json.arr (l.map encodeEntry)

/-- `JSON.parse(savedEntries)` read back as an entries list. -/
def decodeEntries : Json → Option (List Entry)
  | Json.arr js => decodeEntryList js
  | _ => none

/-- `loadSavedEntries` (lines 28-34): read the `"journalEntries"` key,
parse it when present, and fall back to `[]`. -/
def loadSavedEntries (st : Store) : List Entry :=
  match st.getItem "journalEntries" with
  | some j => (decodeEntries j).getD []
  | none => []

/-- The component's `useState` hooks (lines 45-66). -/
structure JournalState where
  isLoginPage : Bool
  isSignUpPage : Bool
  user : Option User
  entries : List Entry
  newEntry : Entry
  editMode : Bool
  editIndex : Option Nat
  suggestions : List Suggestion
deriving Repr, DecidableEq

/-- The persistence `useEffect` (lines 68-72), run after every change of
`entries`: `localStorage.setItem("journalEntries", JSON.stringify(entries))`. -/
def persistEntries (s : JournalState) (st : Store) : Store :=
  st.setItem "journalEntries" (encodeEntries s.entries)

/-- `handleLogout` (lines 75-78): remove the `"user"` key and clear the
`user` state. -/
def handleLogout (s : JournalState) (st : Store) : JournalState × Store :=
  ({ s with user := none }, st.removeItem "user")

/-- `Array.prototype.map` with an index-aware callback, from start
index `n` (used at line 121 as `entries.map((entry, index) => ...)`
with `n = 0`). -/
def mapWithIndex (f : Nat → α → β) : List α → Nat → List β
  | [], _ => []
  | a :: as, n => f n a :: mapWithIndex f as (n + 1)

/-- `Array.prototype.filter` with an index-aware callback, from start
index `n` (used at line 154 as `entries.filter((_, i) => ...)` with
`n = 0`). -/
def filterWithIndex (p : Nat → α → Bool) : List α → Nat → List α
  | [], _ => []
  | a :: as, n =>
      if p n a then a :: filterWithIndex p as (n + 1)
      else filterWithIndex p as (n + 1)

/-- `resetForm` (lines 132-144): empty the form, drop the suggestions,
leave edit mode. -/
def resetForm (s : JournalState) : JournalState :=
  { s with newEntry := emptyEntry, suggestions := [],
           editMode := false, editIndex := none }

/-- `handleSubmit` (lines 112-130).  `now` is the value of `Date.now()`.
Returns the new state and whether the validation alert fired
(`!newEntry.title || !newEntry.date || !newEntry.location`, the JS
falsiness of an empty string).  In edit mode with a non-null
`editIndex`, the entry at that index is replaced by `newEntry`
(lines 120-125); otherwise `{ ...newEntry, id: Date.now() }` is
appended (line 127); either way `resetForm` runs (line 129). -/
def handleSubmit (s : JournalState) (now : Nat) : JournalState × Bool :=
  if s.newEntry.title = "" ∨ s.newEntry.date = "" ∨ s.newEntry.location = "" then
    (s, true)
  else
    match s.editMode, s.editIndex with
    | true, some i =>
        let updatedEntries :=
          mapWithIndex
            (fun index entry => if index = i then s.newEntry else entry)
            s.entries 0
        (resetForm { s with entries := updatedEntries }, false)
    | _, _ =>
        (resetForm
          { s with entries := s.entries ++ [{ s.newEntry with id := some now }] },
         false)

/-- `handleDeleteEntry` (lines 152-159): when `window.confirm` is
answered `true`, keep exactly the entries whose index differs from
`index`; otherwise do nothing. -/
def handleDeleteEntry (s : JournalState) (index : Nat) (confirmed : Bool) :
    JournalState :=
  if confirmed then
    { s with entries := filterWithIndex (fun i _ => i != index) s.entries 0 }
  else s

/-- The third-party autocomplete URL built at lines 18-20. -/
def suggestionsUrl (query : String) : String :=
  "https://api.example.com/suggestions?query=" ++ query

/-- An HTTP response for the autocomplete fetch: its `ok` flag and (for
an ok response) the decoded JSON body. -/
structure Response where
  ok : Bool
  body : List Suggestion
deriving Repr, DecidableEq

/-- `fetchSuggestions` (lines 17-25): throw when the response is not
ok, otherwise return the parsed body. -/
def fetchSuggestions (r : Response) : Except String (List Suggestion) :=
  if !r.ok then Except.error "Failed to fetch suggestions"
  else Except.ok r.body

/-- `handleLocationChange` (lines 84-100).  `value` is the typed input;
`response` is the outcome of the network request, `none` standing for a
network failure (the promise rejecting before a response).  Returns the
new state together with the URL requested, `none` when no request was
made.  The handler always stores `value` into `newEntry.location`; for
`value.length > 2` it awaits `fetchSuggestions value` and on success
stores the result, swallowing any error (suggestions unchanged);
otherwise it clears the suggestions. -/
def handleLocationChange (s : JournalState) (value : String)
    (response : Option Response) : JournalState × Option String :=
  let s1 := { s with newEntry := { s.newEntry with location := value } }
  if value.length > 2 then
    let outcome : Except String (List Suggestion) :=
      match response with
      | none => Except.error "network failure"
      | some r => fetchSuggestions r
    match outcome with
    | Except.ok sugg => ({ s1 with suggestions := sugg }, some (suggestionsUrl value))
    | Except.error _ => (s1, some (suggestionsUrl value))
  else
    ({ s1 with suggestions := [] }, none)

/-- Whether the awaited autocomplete fetch failed: the promise rejected
(`none`) or the response was not ok (line 21). -/
def fetchFailed : Option Response → Bool
  | none => true
  | some r => !r.ok

/-- What the component returns (line 223): `renderAuthForm`
(lines 162-197, carrying the login/signup toggles) when `user` is null,
else `renderMainContent` (lines 200-221, carrying the `Header` email,
the `EntryForm` state and the `EntryList` entries). -/
inductive Rendered where
  | authForm (isLogin isSignUp : Bool) : Rendered
  | mainContent (email : String) (form : Entry) (editMode : Bool)
      (suggestions : List Suggestion) (entries : List Entry) : Rendered
deriving Repr, DecidableEq

/-- `return user ? renderMainContent() : renderAuthForm()` (line 223);
the header email is `user?.email || ""` (line 202). -/
def render (s : JournalState) : Rendered :=
  match s.user with
  | some u =>
      Rendered.mainContent (if u.email = "" then "" else u.email)
        s.newEntry s.editMode s.suggestions s.entries
  | none => Rendered.authForm s.isLoginPage s.isSignUpPage

/-- Does the rendered page show the entry create/edit/delete interface
(`EntryForm` and `EntryList`)? -/
def Rendered.showsJournal : Rendered → Bool
  | Rendered.mainContent _ _ _ _ _ => true
  | Rendered.authForm _ _ => false

/-- Does the rendered page show the authentication form? -/
def Rendered.showsAuth : Rendered → Bool
  | Rendered.mainContent _ _ _ _ _ => false
  | Rendered.authForm _ _ => true

/-! ### Helper lemmas -/

theorem decodeOptStr_encodeOptStr (o : Option String) :
    decodeOptStr (encodeOptStr o) = some o := by
  cases o <;> rfl

theorem decodeEntry_encodeEntry (e : Entry) :
    decodeEntry (encodeEntry e) = some e := by
  cases e with
  | mk t d l n i v id => cases i <;> cases v <;> cases id <;> rfl

theorem decodeEntryList_map_encodeEntry (l : List Entry) :
    decodeEntryList (l.map encodeEntry) = some l := by
  induction l with
  | nil => rfl
  | cons e es ih =>
      simp [decodeEntryList, decodeEntry_encodeEntry, ih]

theorem decodeEntries_encodeEntries (l : List Entry) :
    decodeEntries (encodeEntries l) = some l := by
  simp [decodeEntries, encodeEntries, decodeEntryList_map_encodeEntry]

theorem length_mapWithIndex (f : Nat → α → β) :
    ∀ (l : List α) (n : Nat), (mapWithIndex f l n).length = l.length
  | [], _ => rfl
  | _ :: as, n => by
      simp [mapWithIndex, length_mapWithIndex f as (n + 1)]

theorem getElem?_mapWithIndex (f : Nat → α → β) :
    ∀ (l : List α) (n j : Nat),
      (mapWithIndex f l n)[j]? = (l[j]?).map (f (n + j))
  | [], n, j => by simp [mapWithIndex]
  | a :: as, n, 0 => by simp [mapWithIndex]
  | a :: as, n, j + 1 => by
      have h : n + 1 + j = n + (j + 1) := by omega
      simp [mapWithIndex, getElem?_mapWithIndex f as (n + 1) j, h]

theorem filterWithIndex_ne (index : Nat) :
    ∀ (l : List α) (n : Nat),
      filterWithIndex (fun i _ => i != index) l n =
        if index < n then l
        else l.take (index - n) ++ l.drop (index - n + 1)
  | [], n => by simp [filterWithIndex]
  | a :: as, n => by
      rcases Nat.lt_trichotomy index n with h1 | h1 | h1
      · have hb : (n != index) = true := by
          simp [bne_iff_ne]; omega
        simp only [filterWithIndex, hb, if_true]
        rw [filterWithIndex_ne index as (n + 1),
          if_pos (by omega : index < n + 1), if_pos h1]
      · have hb : (n != index) = false := by
          simp [bne_iff_ne]; omega
        simp only [filterWithIndex, hb, Bool.false_eq_true, if_false]
        rw [filterWithIndex_ne index as (n + 1),
          if_pos (by omega : index < n + 1),
          if_neg (by omega : ¬ index < n)]
        have h2 : index - n = 0 := by omega
        simp [h2]
      · have hb : (n != index) = true := by
          simp [bne_iff_ne]; omega
        simp only [filterWithIndex, hb, if_true]
        rw [filterWithIndex_ne index as (n + 1),
          if_neg (by omega : ¬ index < n + 1),
          if_neg (by omega : ¬ index < n)]
        obtain ⟨k, hk⟩ : ∃ k, index - n = k + 1 := ⟨index - n - 1, by omega⟩
        have hk2 : index - (n + 1) = k := by omega
        rw [hk, hk2]
        simp [List.take_succ_cons, List.drop_succ_cons]

/-! ### Sample data used by witnesses and counterexamples -/

/-- A signed-in state with an empty journal and an empty form. -/
def sampleState : JournalState :=
  { isLoginPage := false, isSignUpPage := false,
    user := some { email := "a@example.com" },
    entries := [], newEntry := emptyEntry,
    editMode := false, editIndex := none, suggestions := [] }

/-- A stored entry. -/
def sampleEntryA : Entry :=
  { title := "Louvre", date := "2024-01-01", location := "Paris",
    notes := "day one", image := none, video := none, id := some 1 }

/-- Another stored entry. -/
def sampleEntryB : Entry :=
  { title := "Colosseum", date := "2024-02-02", location := "Rome",
    notes := "", image := some "data:image/png;base64,AAAA", video := none,
    id := some 2 }

/-- A filled-in form about to be submitted in create mode. -/
def sampleFilled : JournalState :=
  { sampleState with
    entries := [sampleEntryA],
    newEntry := { title := "Trip", date := "2024-03-03", location := "Kyoto",
                  notes := "n", image := none, video := none, id := none } }

/-- A state in edit mode on index 0 of a two-entry list. -/
def sampleEditState : JournalState :=
  { sampleState with
    entries := [sampleEntryA, sampleEntryB],
    newEntry := { title := "Louvre again", date := "2024-01-05",
                  location := "Paris", notes := "edited", image := none,
                  video := none, id := some 1 },
    editMode := true, editIndex := some 0 }

/-! ### Claim theorems -/

/-- C1: after every change to the entries list, the persistence effect
leaves under the `"journalEntries"` key exactly the JSON serialization
of that list, and `loadSavedEntries` on the resulting store returns a
list equal to the current entries list (save/load round trip). -/
theorem c1_persist_roundtrip (s : JournalState) (st : Store) :
    (persistEntries s st).getItem "journalEntries" = some (encodeEntries s.entries) ∧
    loadSavedEntries (persistEntries s st) = s.entries := by
  constructor
  · simp [persistEntries, Store.setItem, Store.getItem]
  · simp [loadSavedEntries, persistEntries, Store.setItem, Store.getItem,
      decodeEntries_encodeEntries]

/-- C2: with `editMode` false and `newEntry` having non-empty title,
date and location, `handleSubmit` appends exactly one entry —
`newEntry`'s fields plus the fresh `Date.now()` id — to the end of the
list, leaving every pre-existing entry unchanged in value and
position. -/
theorem c2_submit_create_appends (s : JournalState) (now : Nat)
    (hmode : s.editMode = false)
    (ht : s.newEntry.title ≠ "") (hd : s.newEntry.date ≠ "")
    (hl : s.newEntry.location ≠ "") :
    (handleSubmit s now).1.entries =
      s.entries ++ [{ s.newEntry with id := some now }] := by
  cases hidx : s.editIndex <;>
    simp [handleSubmit, hmode, hidx, ht, hd, hl, resetForm]

/-- C2 witness. -/
theorem c2_submit_create_appends_witness :
    (handleSubmit sampleFilled 42).1.entries =
      sampleFilled.entries ++ [{ sampleFilled.newEntry with id := some 42 }] :=
  c2_submit_create_appends sampleFilled 42 rfl (by decide) (by decide) (by decide)

/-- C3: with `editMode` true, `editIndex` a valid index `i` and a
non-empty title, date and location, `handleSubmit` replaces the entry
at index `i` by `newEntry` and leaves the length and every other
position unchanged. -/
theorem c3_submit_edit_frame (s : JournalState) (now : Nat) (i : Nat)
    (hmode : s.editMode = true) (hidx : s.editIndex = some i)
    (hvalid : i < s.entries.length)
    (ht : s.newEntry.title ≠ "") (hd : s.newEntry.date ≠ "")
    (hl : s.newEntry.location ≠ "") :
    (handleSubmit s now).1.entries.length = s.entries.length ∧
    ((handleSubmit s now).1.entries)[i]? = some s.newEntry ∧
    ∀ j, j ≠ i → ((handleSubmit s now).1.entries)[j]? = s.entries[j]? := by
  have hent : (handleSubmit s now).1.entries =
      mapWithIndex (fun index entry => if index = i then s.newEntry else entry)
        s.entries 0 := by
    simp [handleSubmit, hmode, hidx, ht, hd, hl, resetForm]
  refine ⟨?_, ?_, ?_⟩
  · rw [hent, length_mapWithIndex]
  · rw [hent, getElem?_mapWithIndex]
    rw [List.getElem?_eq_getElem hvalid]
    simp
  · intro j hj
    rw [hent, getElem?_mapWithIndex]
    simp only [Nat.zero_add, hj, if_false]
    cases s.entries[j]? <;> rfl

/-- C3 witness. -/
theorem c3_submit_edit_frame_witness :
    (handleSubmit sampleEditState 99).1.entries.length =
        sampleEditState.entries.length ∧
    ((handleSubmit sampleEditState 99).1.entries)[0]? =
        some sampleEditState.newEntry ∧
    ((handleSubmit sampleEditState 99).1.entries)[1]? =
        sampleEditState.entries[1]? :=
  ⟨(c3_submit_edit_frame sampleEditState 99 0 rfl rfl (by decide) (by decide)
      (by decide) (by decide)).1,
   (c3_submit_edit_frame sampleEditState 99 0 rfl rfl (by decide) (by decide)
      (by decide) (by decide)).2.1,
   (c3_submit_edit_frame sampleEditState 99 0 rfl rfl (by decide) (by decide)
      (by decide) (by decide)).2.2 1 (by decide)⟩

/-- C4: for an entries list of length `n` and an index `i < n`, a
confirmed `handleDeleteEntry i` produces the original list with exactly
the element at index `i` removed (the entries before `i` followed by
the entries after `i`, order preserved), of length `n - 1`. -/
theorem c4_delete_removes_indexed (s : JournalState) (i : Nat)
    (h : i < s.entries.length) :
    (handleDeleteEntry s i true).entries =
      s.entries.take i ++ s.entries.drop (i + 1) ∧
    (handleDeleteEntry s i true).entries.length = s.entries.length - 1 := by
  have hent : (handleDeleteEntry s i true).entries =
      s.entries.take i ++ s.entries.drop (i + 1) := by
    simp only [handleDeleteEntry, if_pos rfl]
    rw [filterWithIndex_ne, if_neg (by omega : ¬ i < 0)]
    simp
  refine ⟨hent, ?_⟩
  rw [hent]
  simp only [List.length_append, List.length_take, List.length_drop]
  omega

/-- C4 witness. -/
theorem c4_delete_removes_indexed_witness :
    (handleDeleteEntry sampleEditState 0 true).entries =
      sampleEditState.entries.take 0 ++ sampleEditState.entries.drop 1 ∧
    (handleDeleteEntry sampleEditState 0 true).entries.length =
      sampleEditState.entries.length - 1 :=
  c4_delete_removes_indexed sampleEditState 0 (by decide)

/-- C5: when `newEntry.title`, `newEntry.date` or `newEntry.location`
is empty, `handleSubmit` only fires the alert and changes nothing (the
whole state is returned unchanged); and when the three required fields
are non-empty, submission is never blocked, whatever the `image` and
`video` fields are. -/
theorem c5_submit_validation (s : JournalState) (now : Nat) :
    ((s.newEntry.title = "" ∨ s.newEntry.date = "" ∨ s.newEntry.location = "") →
      handleSubmit s now = (s, true)) ∧
    (s.newEntry.title ≠ "" → s.newEntry.date ≠ "" → s.newEntry.location ≠ "" →
      ∀ img vid : Option String,
        (handleSubmit
          { s with newEntry := { s.newEntry with image := img, video := vid } }
          now).2 = false) := by
  constructor
  · intro h
    simp [handleSubmit, h]
  · intro ht hd hl img vid
    cases hmode : s.editMode <;> cases hidx : s.editIndex <;>
      simp [handleSubmit, hmode, hidx, ht, hd, hl]

/-- C5 witness: an empty title blocks atomically; with the required
fields filled, present or absent media never block. -/
theorem c5_submit_validation_witness :
    (handleSubmit sampleState 7 = (sampleState, true)) ∧
    (handleSubmit
      { sampleFilled with
        newEntry := { sampleFilled.newEntry with
          image := some "data:image/png;base64,AAAA", video := none } }
      7).2 = false :=
  ⟨(c5_submit_validation sampleState 7).1 (Or.inl rfl),
   (c5_submit_validation sampleFilled 7).2 (by decide) (by decide) (by decide)
     (some "data:image/png;base64,AAAA") none⟩

/-- C6 counterexample: a change event whose value `"ab"` has length 2
performs no fetch at all (no URL is requested) and sets the suggestions
state to `[]`, even though a successful response holding a suggestion
is available — refuting the claim that every change event fetches and
stores fetched suggestions. -/
theorem c6_fetch_on_every_keystroke_cex :
    (handleLocationChange sampleState "ab"
        (some { ok := true,
                body := [{ place_id := 1, description := "Abbey Road" }] })).2
      = none ∧
    (handleLocationChange sampleState "ab"
        (some { ok := true,
                body := [{ place_id := 1, description := "Abbey Road" }] })).1.suggestions
      = [] := by
  constructor <;> rfl

/-- C6 (amended): for every change event whose typed value is longer
than 2 characters, `handleLocationChange` sets `newEntry.location` to
the typed value and requests the third-party endpoint URL for that
value; when the response is ok, its body is stored in the suggestions
state. -/
theorem c6_fetch_on_long_keystroke (s : JournalState) (value : String)
    (r : Response) (hlen : 2 < value.length) (hok : r.ok = true) :
    (handleLocationChange s value (some r)).1.newEntry.location = value ∧
    (handleLocationChange s value (some r)).2 = some (suggestionsUrl value) ∧
    (handleLocationChange s value (some r)).1.suggestions = r.body := by
  simp [handleLocationChange, fetchSuggestions, hok, if_pos hlen]

/-- C6 (amended) witness. -/
theorem c6_fetch_on_long_keystroke_witness :
    (handleLocationChange sampleState "Par"
        (some { ok := true,
                body := [{ place_id := 5, description := "Paris" }] })).1.newEntry.location
      = "Par" ∧
    (handleLocationChange sampleState "Par"
        (some { ok := true,
                body := [{ place_id := 5, description := "Paris" }] })).2
      = some (suggestionsUrl "Par") ∧
    (handleLocationChange sampleState "Par"
        (some { ok := true,
                body := [{ place_id := 5, description := "Paris" }] })).1.suggestions
      = [{ place_id := 5, description := "Paris" }] :=
  c6_fetch_on_long_keystroke sampleState "Par"
    { ok := true, body := [{ place_id := 5, description := "Paris" }] }
    (by decide) rfl

/-- C7: the component renders the entry create/edit/delete interface
(`EntryForm` and `EntryList`) iff `user` is non-null, and the
authentication form iff `user` is null. -/
theorem c7_auth_gates_journal (s : JournalState) :
    ((render s).showsJournal = true ↔ s.user ≠ none) ∧
    ((render s).showsAuth = true ↔ s.user = none) := by
  cases hu : s.user <;>
    simp [render, hu, Rendered.showsJournal, Rendered.showsAuth]

/-- C7 witness. -/
theorem c7_auth_gates_journal_witness :
    ((render sampleState).showsJournal = true ↔ sampleState.user ≠ none) ∧
    ((render sampleState).showsAuth = true ↔ sampleState.user = none) :=
  c7_auth_gates_journal sampleState

/-- C8: `handleLogout` removes the `"user"` localStorage key and sets
`user` to null, while the entries list and the `"journalEntries"` key
are unchanged: journal entries survive logout. -/
theorem c8_logout_preserves_journal (s : JournalState) (st : Store) :
    (handleLogout s st).1.user = none ∧
    (handleLogout s st).1.entries = s.entries ∧
    ((handleLogout s st).2).getItem "user" = none ∧
    ((handleLogout s st).2).getItem "journalEntries" =
      st.getItem "journalEntries" := by
  refine ⟨rfl, rfl, ?_, ?_⟩
  · simp [handleLogout, Store.removeItem, Store.getItem]
  · simp only [handleLogout, Store.removeItem, Store.getItem]
    rw [if_neg (by decide : ¬ ("journalEntries" : String) = "user")]

/-- C9: `handleLocationChange` on a value of length at most 2 clears
the suggestions without issuing any fetch; on a value of length greater
than 2 whose fetch fails (network failure or non-ok response), the
previous suggestions state is left unchanged. -/
theorem c9_short_clears_failure_preserves (s : JournalState)
    (value : String) (response : Option Response) :
    (value.length ≤ 2 →
      (handleLocationChange s value response).1.suggestions = [] ∧
      (handleLocationChange s value response).2 = none) ∧
    (2 < value.length → fetchFailed response = true →
      (handleLocationChange s value response).1.suggestions = s.suggestions) := by
  constructor
  · intro hle
    simp [handleLocationChange, if_neg (by omega : ¬ 2 < value.length)]
  · intro hlen hfail
    cases response with
    | none => simp [handleLocationChange, if_pos hlen]
    | some r =>
        have hok : r.ok = false := by
          simpa [fetchFailed] using hfail
        simp [handleLocationChange, if_pos hlen, fetchSuggestions, hok]

/-- C9 witness: length-2 input clears without fetching; a failed fetch
on a length-3 input leaves the previous suggestions in place. -/
theorem c9_short_clears_failure_preserves_witness :
    ((handleLocationChange sampleState "ab" none).1.suggestions = [] ∧
      (handleLocationChange sampleState "ab" none).2 = none) ∧
    (handleLocationChange
        { sampleState with
          suggestions := [{ place_id := 9, description := "kept" }] }
        "abc" (some { ok := false, body := [] })).1.suggestions =
      { sampleState with
          suggestions := [{ place_id := 9, description := "kept" }] }.suggestions :=
  ⟨(c9_short_clears_failure_preserves sampleState "ab" none).1 (by decide),
   (c9_short_clears_failure_preserves
      { sampleState with
        suggestions := [{ place_id := 9, description := "kept" }] }
      "abc" (some { ok := false, body := [] })).2 (by decide) rfl⟩

/-- C10: every `handleSubmit` call that passes validation — create or
edit — resets the editor: the form equals the initial empty entry, the
suggestions list is empty, `editMode` is false and `editIndex` is
null. -/
theorem c10_submit_resets_form (s : JournalState) (now : Nat)
    (ht : s.newEntry.title ≠ "") (hd : s.newEntry.date ≠ "")
    (hl : s.newEntry.location ≠ "") :
    (handleSubmit s now).1.newEntry = emptyEntry ∧
    (handleSubmit s now).1.suggestions = [] ∧
    (handleSubmit s now).1.editMode = false ∧
    (handleSubmit s now).1.editIndex = none := by
  cases hmode : s.editMode <;> cases hidx : s.editIndex <;>
    simp [handleSubmit, hmode, hidx, ht, hd, hl, resetForm]

/-- C10 witness: the reset happens in create mode and in edit mode. -/
theorem c10_submit_resets_form_witness :
    (handleSubmit sampleEditState 99).1.newEntry = emptyEntry ∧
    (handleSubmit sampleEditState 99).1.suggestions = [] ∧
    (handleSubmit sampleEditState 99).1.editMode = false ∧
    (handleSubmit sampleEditState 99).1.editIndex = none :=
  c10_submit_resets_form sampleEditState 99 (by decide) (by decide) (by decide)

end VirtualTravelJournal
